import Mathlib

/-
Verification of the user-mode task execution core of the ByteOS kernel
(`kernel/src/tasks/mod.rs`): the Syscall Step (`handle_syscall`), the Signal
Trampoline (`handle_signal`) and the Task Main Loop (`user_entry_inner`).

The embedding is a faithful shallow port of the Rust source.  External
collaborators (the `arch` hardware-context crate, the executor's
`frame_alloc`, the signal crate's pending-set, the syscall dispatcher) are
not part of the given sources; they are modelled from their interface
contracts in the specification, each marked `Modelled from the spec:`.
Machine words are `Nat` taken modulo `2 ^ 64` where the source relies on
two's-complement casts (`as isize as usize`).
-/

namespace ByteOS

/-- Machine word modulus: `usize` / `isize` on the riscv64 target are 64 bits wide. -/
def wordSize : Nat := 2 ^ 64

/-- Two's-complement encoding of the negation of `e` as a `usize`,
i.e. `(-(e as isize)) as usize`. -/
def negWord (e : Nat) : Nat := (wordSize - e % wordSize) % wordSize

/-- The termination sentinel: `(-500 as isize) as usize` from the source's
check `result == (-500 as isize) as usize`. -/
def exitSentinel : Nat := negWord 500

/-- Modelled from the spec: page size used by `VirtPage::from_addr` in the
external `arch` crate (riscv64 Sv39 pages, 4096 bytes). -/
def pageSize : Nat := 4096

/-- Modelled from the spec: the saved hardware context of a task ("program
counter, stack pointer, argument registers, saved-state register, return
address"), as accessed through the external `arch::ContextOps` interface:
`sepc`, `sp`, `ra`, argument registers (`set_arg0/1/2`), the return-value
register (`set_ret`) and the call-acknowledged marker set by `syscall_ok`. -/
structure Context where
  sepc : Nat
  sp : Nat
  ra : Nat
  sstatus : Nat
  arg0 : Nat
  arg1 : Nat
  arg2 : Nat
  ret : Nat
  acked : Bool
deriving DecidableEq

/-- The trap classification produced by `trap_pre_handle` (`arch::TrapType`). -/
inductive TrapType where
  | Breakpoint
  | UserEnvCall
  | Time
  | Unknown
  | StorePageFault (addr : Nat)
deriving DecidableEq

/-- Memory-area classification (`executor::MemType`); the source uses
`Clone` (copy-on-write areas), `Stack` and `CodeSection`. -/
inductive MemType where
  | CodeSection
  | Clone
  | Stack
  | Shared
deriving DecidableEq

/-- One frame-tracking record (`mtrackers` entry) for a mapped virtual page. -/
structure MemTracker where
  vpn : Nat
deriving DecidableEq

/-- One memory area of the task's address space (`mem_area` in the source). -/
structure MemArea where
  mtype : MemType
  mtrackers : List MemTracker
deriving DecidableEq

/-- The part of `syscall::consts::SignalUserContext` accessed by the
trampoline: the resume program counter `pc` and the recorded mask `sig_mask`. -/
structure SignalUserContext where
  pc : Nat
  sig_mask : Nat
deriving DecidableEq

/-- A per-signal action record (`sigaction` entry): handler address,
handler signal mask and restorer address. -/
structure SigAction where
  handler : Nat
  mask : Nat
  restorer : Nat
deriving DecidableEq

/-- The task state visible to the trap/signal core: hardware context (TCB
`cx`), active signal mask, pending-signal set, exit status, time accounting
(`tms`), memory areas (PCB `memset`), the `sigaction` table and the user
memory cells holding `SignalUserContext` records (an association list from
address to record, most recent write first). -/
structure TaskState where
  cx : Context
  sigmask : Nat
  pending : List Nat
  exitCode : Option Nat
  exitSignal : Option Nat
  utime : Nat
  stime : Nat
  memset : List MemArea
  sigactions : List SigAction
  mem : List (Nat × SignalUserContext)
deriving DecidableEq

/-- The control-flow verdict of one Syscall Step (`UserTaskControlFlow`). -/
inductive UserTaskControlFlow where
  | Continue
  | Break
deriving DecidableEq

/-- Outcome of the external syscall dispatcher for one request:
`Result<usize, LinuxError>` with the error carrying its positive code. -/
inductive SysResult where
  | ok (x : Nat)
  | err (e : Nat)
deriving DecidableEq

/-- Modelled from the spec: everything the environment contributes to one
Syscall Step — the user-mode stores performed before the trap
(`userWrites`), the register state written back by hardware at trap time
(`trapCx`), the trap classification, the dispatcher's result and its
possible exit-status side effect (e.g. `sys_exit`), and the two `get_time`
readings taken at the accounting points. -/
structure TrapEvent where
  userWrites : List (Nat × SignalUserContext)
  trapCx : Context
  trap : TrapType
  sysResult : SysResult
  sysSetsExit : Option Nat
  tAfterUser : Nat
  tAtEnd : Nat
deriving DecidableEq

/-- The source's `let ustart = 0;` start marker for user-time accounting. -/
def ustart : Nat := 0

/-- The source's `let sstart = 0;` start marker for system-time accounting. -/
def sstart : Nat := 0

/-- How a dispatcher outcome is stored into the return-value register:
`map_or_else(|e| -e.code(), |x| x as isize) as usize`. -/
def dispatchStore : SysResult → Nat
  | SysResult.ok x => x % wordSize
  | SysResult.err e => negWord e

/-- Read a `SignalUserContext` record from user memory. -/
def memRead (m : List (Nat × SignalUserContext)) (a : Nat) : SignalUserContext :=
  (((m.find? fun p => p.1 == a).map fun p => p.2).getD ⟨0, 0⟩)

/-- Write a `SignalUserContext` record to user memory. -/
def memWrite (m : List (Nat × SignalUserContext)) (a : Nat) (v : SignalUserContext) :
    List (Nat × SignalUserContext) :=
  (a, v) :: m

/-- Look up the action for a signal: `task.pcb.lock().sigaction[signal.num()]`. -/
def sigactionOf (st : TaskState) (signal : Nat) : SigAction :=
  st.sigactions.getD signal ⟨0, 0, 0⟩

/-- The copy-on-write lookup of the store-fault handler: find a frame record
whose page equals `vpn` inside an area of type `Clone`
(`memset.iter().find_map(|mem_area| mem_area.mtrackers.iter().find(..))`). -/
def findClone (memset : List MemArea) (vpn : Nat) : Option MemTracker :=
  memset.findSome? fun ma =>
    ma.mtrackers.find? fun t => decide (t.vpn = vpn) && decide (ma.mtype = MemType.Clone)

/-- Modelled from the spec: `UserTask::frame_alloc(vpn, mtype, count)` of the
external executor crate — "allocate and map one frame with a given
classification tag" for each of `count` consecutive pages starting at `vpn`,
recorded as a fresh memory area holding the new frame-tracking records. -/
def frame_alloc (memset : List MemArea) (vpn : Nat) (mt : MemType) (count : Nat) :
    List MemArea :=
  ⟨mt, (List.range count).map fun i => ⟨vpn + i⟩⟩ :: memset

/-- The resume-into-user prefix of one Syscall Step: `user_restore(cx_ref)`
lets the user run (its stores land in memory, hardware writes the trapped
register state back into the context), then
`inner.tms.utime += (get_time() - ustart)` accumulates user time. -/
def stepEnter (ev : TrapEvent) (task : TaskState) : TaskState :=
  { task with
    cx := ev.trapCx
    mem := ev.userWrites ++ task.mem
    utime := task.utime + (ev.tAfterUser - ustart) }

/-- The final system-time accumulation of a Syscall Step:
`inner.tms.stime += (get_time() - sstart)` (reached only on paths that fall
through to the end of `handle_syscall`). -/
def addStime (ev : TrapEvent) (st : TaskState) : TaskState :=
  { st with stime := st.stime + (ev.tAtEnd - sstart) }

/-- The `UserEnvCall` branch bookkeeping: `cx_ref.syscall_ok()` marks the
call acknowledged, the awaited dispatcher runs (possibly setting the exit
status, e.g. `sys_exit`), and `cx_ref.set_ret(result)` stores the mapped
result into the return-value register. -/
def syscallApply (ev : TrapEvent) (st : TaskState) : TaskState :=
  { st with
    cx := { st.cx with acked := true, ret := dispatchStore ev.sysResult }
    exitCode := match ev.sysSetsExit with
      | some c => some c
      | none => st.exitCode }

/-- One Syscall Step (`handle_syscall` in `kernel/src/tasks/mod.rs`): resume
into user, accumulate user time, classify the trap and branch; `none`
models the `panic!` on an unknown trap. -/
def handle_syscall (ev : TrapEvent) (task : TaskState) :
    Option (TaskState × UserTaskControlFlow) :=
  match ev.trap with
  | TrapType.Breakpoint =>
      some (addStime ev (stepEnter ev task), UserTaskControlFlow.Continue)
  | TrapType.UserEnvCall =>
      if dispatchStore ev.sysResult = exitSentinel then
        some (syscallApply ev (stepEnter ev task), UserTaskControlFlow.Break)
      else
        some (addStime ev (syscallApply ev (stepEnter ev task)), UserTaskControlFlow.Continue)
  | TrapType.Time =>
      some (addStime ev (stepEnter ev task), UserTaskControlFlow.Continue)
  | TrapType.Unknown => none
  | TrapType.StorePageFault addr =>
      match findClone (stepEnter ev task).memset (addr / pageSize) with
      | some _ =>
          some (addStime ev (stepEnter ev task), UserTaskControlFlow.Continue)
      | none =>
          if 0x7ff00000 ≤ addr ∧ addr < 0x7ffff000 then
            some (addStime ev
              { stepEnter ev task with
                memset := frame_alloc (stepEnter ev task).memset (addr / pageSize)
                  MemType.Stack 1 },
              UserTaskControlFlow.Continue)
          else
            some (stepEnter ev task, UserTaskControlFlow.Break)

/-- Modelled from the spec: `exit_with_signal(num)` of the external executor
crate terminates the task "with that signal number as exit cause" — the exit
status is set so the main loop's next exit-status check observes it, and the
causing signal is recorded. -/
def exit_with_signal (signal : Nat) (st : TaskState) : TaskState :=
  { st with exitCode := some signal, exitSignal := some signal }

/-- Modelled from the spec: the numeric value of the dedicated
cancellation-class signal (`SignalFlags::SIGCANCEL` of the external signal
crate). -/
def sigcancelNum : Nat := 33

/-- Modelled from the spec: `size_of::<SignalUserContext>()` — the byte size
of the record defined in the external `syscall::consts` module. -/
def sigCtxSize : Nat := 256

/-- The scratch address computed by the trampoline:
`sp -= 128; sp -= size_of::<SignalUserContext>(); sp = sp / 16 * 16;`. -/
def sigStackAddr (sp : Nat) : Nat := (sp - 128 - sigCtxSize) / 16 * 16

/-- The state after the trampoline's setup (`handle_signal` lines before the
loop): the handler's mask is installed as the active mask, a
`SignalUserContext` holding the pre-signal program counter and
`sigaction.mask` is written at the scratch address, and the live context is
rewritten to enter the handler (`set_sepc(handler)`, `set_ra(restorer)`,
`set_arg0(signal.num())`, `set_arg1(0)`, `set_arg2(sp)`). -/
def signalEntryState (signal : Nat) (st : TaskState) : TaskState :=
  { st with
    sigmask := (sigactionOf st signal).mask
    mem := memWrite st.mem (sigStackAddr st.cx.sp)
      ⟨st.cx.sepc, (sigactionOf st signal).mask⟩
    cx := { st.cx with
      sepc := (sigactionOf st signal).handler
      ra := (sigactionOf st signal).restorer
      arg0 := signal
      arg1 := 0
      arg2 := sigStackAddr st.cx.sp } }

/-- The trampoline's teardown after its loop: the pre-delivery mask is
restored, the context is restored from the `store_cx` snapshot
(`cx_ref.clone_from(&store_cx)`) and the program counter is overwritten
with the one read back from the `SignalUserContext`
(`cx_ref.set_sepc(cx.pc)`).  `st` is the pre-delivery state, `stL` the
state the loop ended in. -/
def signalFinishState (st stL : TaskState) : TaskState :=
  { stL with
    sigmask := st.sigmask
    cx := { st.cx with sepc := (memRead stL.mem (sigStackAddr st.cx.sp)).pc } }

/-- The trampoline's handler-execution loop: break when the task has an exit
status, otherwise run one Syscall Step and break on a `Break` verdict.
`none` models the abort inside a step or the event fuel running out while
the handler is still executing. -/
def signalLoop (evs : List TrapEvent) (st : TaskState) : Option TaskState :=
  if st.exitCode.isSome then some st
  else
    match evs with
    | [] => none
    | ev :: rest =>
      match handle_syscall ev st with
      | none => none
      | some (st', UserTaskControlFlow.Break) => some st'
      | some (st', UserTaskControlFlow.Continue) => signalLoop rest st'

/-- The states observed at the trampoline loop's boundaries: the state at
every top-of-loop check and the state a breaking step ends in. -/
def signalLoopStates (evs : List TrapEvent) (st : TaskState) : List TaskState :=
  if st.exitCode.isSome then [st]
  else
    match evs with
    | [] => [st]
    | ev :: rest =>
      match handle_syscall ev st with
      | none => [st]
      | some (st', UserTaskControlFlow.Break) => [st, st']
      | some (st', UserTaskControlFlow.Continue) => st :: signalLoopStates rest st'

/-- The Signal Trampoline (`handle_signal` in `kernel/src/tasks/mod.rs`):
look up the action; a zero handler gets default semantics (exit for
`SIGCANCEL`, otherwise nothing); a non-zero handler is run through the
trampoline setup, loop and teardown. -/
def handle_signal (evs : List TrapEvent) (signal : Nat) (st : TaskState) :
    Option TaskState :=
  if (sigactionOf st signal).handler = 0 then
    if signal = sigcancelNum then some (exit_with_signal signal st) else some st
  else
    (signalLoop evs (signalEntryState signal st)).map (signalFinishState st)

/-- Modelled from the spec: the pending-set's `try_get_signal() -> Option<Signal>`
— return a pending signal if any remain. -/
def try_get_signal (st : TaskState) : Option Nat := st.pending.head?

/-- Modelled from the spec: the pending-set's `remove_signal(signal)` —
clear one occurrence of the signal from the pending set. -/
def remove_signal (signal : Nat) (st : TaskState) : TaskState :=
  { st with pending := st.pending.erase signal }

/-- The pending-signal drain of the Task Main Loop (`user_entry_inner`'s
inner loop): while a signal is pending, deliver it through the trampoline
and then remove it.  One event list per delivery feeds the trampoline;
`none` models fuel running out.  Also returns the list of delivered
signals in delivery order. -/
def drainSignals (evss : List (List TrapEvent)) (st : TaskState) :
    Option (TaskState × List Nat) :=
  match try_get_signal st, evss with
  | none, _ => some (st, [])
  | some _, [] => none
  | some sig, evs :: rest =>
    match handle_signal evs sig st with
    | none => none
    | some st' =>
      (drainSignals rest (remove_signal sig st')).map fun p => (p.1, sig :: p.2)

/-- One iteration of the Task Main Loop (`user_entry_inner`): drain pending
signals, run one Syscall Step on the primary context, break on a `Break`
verdict or an observed exit status, then bump the fairness counter and
yield to the scheduler at 50.  Returns the new state, whether the loop
breaks, the new counter and whether a scheduler yield occurred. -/
def userEntryIter (evss : List (List TrapEvent)) (ev : TrapEvent) (st : TaskState)
    (times : Nat) : Option (TaskState × Bool × Nat × Bool) :=
  match drainSignals evss st with
  | none => none
  | some (st1, _) =>
    match handle_syscall ev st1 with
    | none => none
    | some (st2, UserTaskControlFlow.Break) => some (st2, true, times, false)
    | some (st2, UserTaskControlFlow.Continue) =>
      if st2.exitCode.isSome then some (st2, true, times, false)
      else if 50 ≤ times + 1 then some (st2, false, 0, true)
      else some (st2, false, times + 1, false)

/-- Concrete hardware context for witnesses. -/
def cx0 : Context := ⟨0x4000, 0x7ff80000, 1, 2, 3, 4, 5, 6, false⟩

/-- Concrete signal action with a non-zero handler for witnesses. -/
def saH : SigAction := ⟨0x5000, 2, 0x6000⟩

/-- Concrete task state for witnesses: active mask 1, signal 3 has handler `saH`,
signals 0-2 have the zero (default) handler. -/
def st0 : TaskState := ⟨cx0, 1, [], none, none, 0, 0, [], [⟨0, 0, 0⟩, ⟨0, 0, 0⟩, ⟨0, 0, 0⟩, saH], []⟩

/-- Concrete event: ordinary successful syscall. -/
def evCall : TrapEvent := ⟨[], cx0, TrapType.UserEnvCall, SysResult.ok 42, none, 3, 7⟩

/-- Concrete event: syscall whose stored result is the termination sentinel. -/
def evBrk : TrapEvent := ⟨[], cx0, TrapType.UserEnvCall, SysResult.err 500, none, 3, 7⟩

/-- Concrete event: successful syscall that also sets the exit status. -/
def evExit : TrapEvent := ⟨[], cx0, TrapType.UserEnvCall, SysResult.ok 0, some 5, 3, 7⟩

/-- Concrete event: store page fault inside the stack-growth range. -/
def evFault1 : TrapEvent := ⟨[], cx0, TrapType.StorePageFault 0x7ff12340, SysResult.ok 0, none, 3, 7⟩

/-- Concrete event: store page fault outside the stack-growth range. -/
def evFault2 : TrapEvent := ⟨[], cx0, TrapType.StorePageFault 0x1234, SysResult.ok 0, none, 3, 7⟩

/-- Concrete task state with two pending signals for the drain witness. -/
def stP : TaskState := { st0 with pending := [2, 3] }

/-- Computed outcome of the ordinary-syscall step on `st0`. -/
def c1Out : TaskState × UserTaskControlFlow :=
  (handle_syscall evCall st0).getD (st0, UserTaskControlFlow.Break)

/-- Computed outcome of the in-range fault step on `st0`. -/
def c2Out : TaskState × UserTaskControlFlow :=
  (handle_syscall evFault1 st0).getD (st0, UserTaskControlFlow.Break)

/-- Computed outcome of the out-of-range fault step on `st0`. -/
def c3Out : TaskState × UserTaskControlFlow :=
  (handle_syscall evFault2 st0).getD (st0, UserTaskControlFlow.Continue)

/-- Computed outcome of a delivery whose handler loop ends by task exit. -/
def c4Out : TaskState := (handle_signal [evExit] 3 st0).getD st0

/-- Computed outcome of a delivery whose handler loop ends by a `Break` verdict. -/
def c5Out : TaskState := (handle_signal [evBrk] 3 st0).getD st0

/-- Computed outcome of draining `stP`'s two pending signals. -/
def c7Out : TaskState × List Nat := (drainSignals [[], [evBrk]] stP).getD (stP, [])

/-- Computed outcome of the sentinel-syscall step on `st0`. -/
def c9Out : TaskState × UserTaskControlFlow :=
  (handle_syscall evBrk st0).getD (st0, UserTaskControlFlow.Continue)

theorem handle_syscall_frame {ev : TrapEvent} {st st' : TaskState} {f : UserTaskControlFlow}
    (h : handle_syscall ev st = some (st', f)) :
    st'.sigmask = st.sigmask ∧ st'.pending = st.pending ∧ st'.sigactions = st.sigactions := by
  obtain ⟨uw, tcx, tr, res, se, t1, t2⟩ := ev
  cases tr <;> simp only [handle_syscall] at h
  case Breakpoint =>
    obtain ⟨rfl, rfl⟩ := Prod.mk.inj (Option.some_inj.mp h)
    exact ⟨rfl, rfl, rfl⟩
  case UserEnvCall =>
    split at h <;>
      obtain ⟨rfl, rfl⟩ := Prod.mk.inj (Option.some_inj.mp h) <;>
      exact ⟨rfl, rfl, rfl⟩
  case Time =>
    obtain ⟨rfl, rfl⟩ := Prod.mk.inj (Option.some_inj.mp h)
    exact ⟨rfl, rfl, rfl⟩
  case Unknown => exact absurd h (by simp)
  case StorePageFault addr =>
    split at h
    · obtain ⟨rfl, rfl⟩ := Prod.mk.inj (Option.some_inj.mp h)
      exact ⟨rfl, rfl, rfl⟩
    · split at h <;>
        obtain ⟨rfl, rfl⟩ := Prod.mk.inj (Option.some_inj.mp h) <;>
        exact ⟨rfl, rfl, rfl⟩

theorem signalLoop_frame {evs : List TrapEvent} {st st' : TaskState}
    (h : signalLoop evs st = some st') :
    st'.sigmask = st.sigmask ∧ st'.pending = st.pending ∧ st'.sigactions = st.sigactions := by
  induction evs generalizing st with
  | nil =>
    rw [signalLoop] at h
    split at h
    · obtain rfl := Option.some_inj.mp h
      exact ⟨rfl, rfl, rfl⟩
    · exact absurd h (by simp)
  | cons ev rest ih =>
    rw [signalLoop] at h
    split at h
    · obtain rfl := Option.some_inj.mp h
      exact ⟨rfl, rfl, rfl⟩
    · cases hcall : handle_syscall ev st with
      | none => rw [hcall] at h; exact absurd h (by simp)
      | some p =>
        obtain ⟨s2, fl⟩ := p
        rw [hcall] at h
        have hfr := handle_syscall_frame hcall
        cases fl with
        | Break =>
          obtain rfl := Option.some_inj.mp h
          exact hfr
        | Continue =>
          have := ih h
          exact ⟨this.1.trans hfr.1, this.2.1.trans hfr.2.1, this.2.2.trans hfr.2.2⟩

theorem signalLoopStates_mask {m : Nat} {evs : List TrapEvent} {st : TaskState}
    (hm : st.sigmask = m) :
    ((signalLoopStates evs st).all fun x => x.sigmask == m) = true := by
  induction evs generalizing st with
  | nil =>
    rw [signalLoopStates]
    split <;> simp [hm]
  | cons ev rest ih =>
    rw [signalLoopStates]
    split
    · simp [hm]
    · cases hcall : handle_syscall ev st with
      | none => simp [hm]
      | some p =>
        obtain ⟨s2, fl⟩ := p
        have hfr := handle_syscall_frame hcall
        cases fl with
        | Break => simp [hm, hfr.1.trans hm]
        | Continue =>
          simp only [List.all_cons, Bool.and_eq_true, beq_iff_eq]
          exact ⟨hm, ih (hfr.1.trans hm)⟩

theorem handle_signal_pending {evs : List TrapEvent} {signal : Nat} {st st' : TaskState}
    (h : handle_signal evs signal st = some st') : st'.pending = st.pending := by
  unfold handle_signal at h
  split at h
  · split at h <;> (obtain rfl := Option.some_inj.mp h; rfl)
  · obtain ⟨stL, hL, rfl⟩ := Option.map_eq_some'.mp h
    exact (signalLoop_frame hL).2.1

theorem handle_signal_sigactions {evs : List TrapEvent} {signal : Nat} {st st' : TaskState}
    (h : handle_signal evs signal st = some st') : st'.sigactions = st.sigactions := by
  unfold handle_signal at h
  split at h
  · split at h <;> (obtain rfl := Option.some_inj.mp h; rfl)
  · obtain ⟨stL, hL, rfl⟩ := Option.map_eq_some'.mp h
    exact (signalLoop_frame hL).2.2

theorem drainSignals_spec (p : List Nat) :
    ∀ (evss : List (List TrapEvent)) (st stF : TaskState) (delivered : List Nat),
      st.pending = p → drainSignals evss st = some (stF, delivered) →
      delivered = p ∧ stF.pending = [] := by
  induction p with
  | nil =>
    intro evss st stF delivered hp h
    rw [drainSignals.eq_def] at h
    rw [show try_get_signal st = none by simp [try_get_signal, hp]] at h
    obtain ⟨rfl, rfl⟩ := Prod.mk.inj (Option.some_inj.mp h)
    exact ⟨rfl, hp⟩
  | cons s rest ih =>
    intro evss st stF delivered hp h
    rw [drainSignals.eq_def] at h
    rw [show try_get_signal st = some s by simp [try_get_signal, hp]] at h
    cases evss with
    | nil => exact absurd h (by simp)
    | cons evs evssRest =>
      dsimp only at h
      cases hsig : handle_signal evs s st with
      | none => rw [hsig] at h; exact absurd h (by simp)
      | some st' =>
        rw [hsig] at h
        obtain ⟨⟨stF2, ds⟩, hrec, hpair⟩ := Option.map_eq_some'.mp h
        obtain ⟨rfl, rfl⟩ := Prod.mk.inj hpair
        have hp' : (remove_signal s st').pending = rest := by
          simp [remove_signal, handle_signal_pending hsig, hp]
        have := ih evssRest (remove_signal s st') stF2 ds hp' hrec
        exact ⟨by rw [this.1], this.2⟩

/-- Claim C1: for every syscall dispatch performed by a Syscall Step, if the
dispatcher returns success the return-value register is set to exactly that
non-negative value; if it returns an error the register is set to the
two's-complement negation of the error code; and if the stored value equals
the termination sentinel (-500) the step yields Stop immediately, otherwise
it yields Continue. -/
theorem claim1_syscall_return (ev : TrapEvent) (st st' : TaskState)
    (f : UserTaskControlFlow) (x e : Nat)
    (ht : ev.trap = TrapType.UserEnvCall)
    (h : handle_syscall ev st = some (st', f)) :
    (ev.sysResult = SysResult.ok x → x < wordSize → st'.cx.ret = x)
    ∧ (ev.sysResult = SysResult.err e → 0 < e → e < wordSize →
        (st'.cx.ret + e) % wordSize = 0)
    ∧ (st'.cx.ret = exitSentinel → f = UserTaskControlFlow.Break)
    ∧ (st'.cx.ret ≠ exitSentinel → f = UserTaskControlFlow.Continue) := by
  obtain ⟨uw, tcx, tr, res, se, t1, t2⟩ := ev
  dsimp only at ht h ⊢
  subst ht
  simp only [handle_syscall] at h
  by_cases hr : dispatchStore res = exitSentinel
  · rw [if_pos hr] at h
    obtain ⟨rfl, rfl⟩ := Prod.mk.inj (Option.some_inj.mp h)
    refine ⟨?_, ?_, fun _ => rfl, fun hne => absurd hr hne⟩
    · intro hx hlt
      subst hx
      show dispatchStore (SysResult.ok x) = x
      simp [dispatchStore, Nat.mod_eq_of_lt hlt]
    · intro he h0 hlt
      subst he
      show (dispatchStore (SysResult.err e) + e) % wordSize = 0
      simp only [dispatchStore, negWord]
      rw [Nat.mod_eq_of_lt hlt, Nat.mod_eq_of_lt (by omega : wordSize - e < wordSize),
        Nat.sub_add_cancel hlt.le, Nat.mod_self]
  · rw [if_neg hr] at h
    obtain ⟨rfl, rfl⟩ := Prod.mk.inj (Option.some_inj.mp h)
    refine ⟨?_, ?_, fun hre => absurd hre hr, fun _ => rfl⟩
    · intro hx hlt
      subst hx
      show dispatchStore (SysResult.ok x) = x
      simp [dispatchStore, Nat.mod_eq_of_lt hlt]
    · intro he h0 hlt
      subst he
      show (dispatchStore (SysResult.err e) + e) % wordSize = 0
      simp only [dispatchStore, negWord]
      rw [Nat.mod_eq_of_lt hlt, Nat.mod_eq_of_lt (by omega : wordSize - e < wordSize),
        Nat.sub_add_cancel hlt.le, Nat.mod_self]

/-- Witness for C1 at the concrete successful syscall `evCall` on `st0`. -/
theorem claim1_witness :
    (evCall.sysResult = SysResult.ok 42 → 42 < wordSize → c1Out.1.cx.ret = 42)
    ∧ (evCall.sysResult = SysResult.err 1 → 0 < 1 → 1 < wordSize →
        (c1Out.1.cx.ret + 1) % wordSize = 0)
    ∧ (c1Out.1.cx.ret = exitSentinel → c1Out.2 = UserTaskControlFlow.Break)
    ∧ (c1Out.1.cx.ret ≠ exitSentinel → c1Out.2 = UserTaskControlFlow.Continue) :=
  claim1_syscall_return evCall st0 c1Out.1 c1Out.2 42 1 (by decide) (by decide)

/-- Claim C2: for every store page fault whose faulting address lies within
the stack-growth range and whose page has no existing copy-on-write frame
record, the Syscall Step allocates exactly one new frame for the containing
virtual page with the stack classification and yields Continue. -/
theorem claim2_stack_fault_alloc (ev : TrapEvent) (st st' : TaskState)
    (f : UserTaskControlFlow) (addr : Nat)
    (ht : ev.trap = TrapType.StorePageFault addr)
    (hlo : 0x7ff00000 ≤ addr) (hhi : addr < 0x7ffff000)
    (hfind : findClone st.memset (addr / pageSize) = none)
    (h : handle_syscall ev st = some (st', f)) :
    f = UserTaskControlFlow.Continue
    ∧ st'.memset = ⟨MemType.Stack, [⟨addr / pageSize⟩]⟩ :: st.memset := by
  obtain ⟨uw, tcx, tr, res, se, t1, t2⟩ := ev
  dsimp only at ht h
  subst ht
  simp only [handle_syscall] at h
  rw [show (stepEnter ⟨uw, tcx, TrapType.StorePageFault addr, res, se, t1, t2⟩ st).memset
      = st.memset from rfl, hfind] at h
  dsimp only at h
  rw [if_pos ⟨hlo, hhi⟩] at h
  obtain ⟨rfl, rfl⟩ := Prod.mk.inj (Option.some_inj.mp h)
  refine ⟨rfl, ?_⟩
  show frame_alloc st.memset (addr / pageSize) MemType.Stack 1 = _
  simp only [frame_alloc]
  rw [show List.range 1 = [0] from rfl]
  simp

/-- Witness for C2 at the concrete in-range store fault `evFault1` on `st0`. -/
theorem claim2_witness :
    c2Out.2 = UserTaskControlFlow.Continue
    ∧ c2Out.1.memset = ⟨MemType.Stack, [⟨0x7ff12340 / pageSize⟩]⟩ :: st0.memset :=
  claim2_stack_fault_alloc evFault1 st0 c2Out.1 c2Out.2 0x7ff12340 (by decide)
    (by decide) (by decide) (by decide) (by decide)

/-- Claim C3: for every store page fault whose faulting address is outside
the stack-growth range and whose page has no copy-on-write frame record,
the Syscall Step yields Stop and leaves every field of the task's hardware
context unchanged by the fault-handling branch (the context equals the
state hardware wrote back at trap time), and no frame is allocated. -/
theorem claim3_fault_stop_frame (ev : TrapEvent) (st st' : TaskState)
    (f : UserTaskControlFlow) (addr : Nat)
    (ht : ev.trap = TrapType.StorePageFault addr)
    (hout : ¬(0x7ff00000 ≤ addr ∧ addr < 0x7ffff000))
    (hfind : findClone st.memset (addr / pageSize) = none)
    (h : handle_syscall ev st = some (st', f)) :
    f = UserTaskControlFlow.Break ∧ st'.cx = ev.trapCx ∧ st'.memset = st.memset := by
  obtain ⟨uw, tcx, tr, res, se, t1, t2⟩ := ev
  dsimp only at ht h ⊢
  subst ht
  simp only [handle_syscall] at h
  rw [show (stepEnter ⟨uw, tcx, TrapType.StorePageFault addr, res, se, t1, t2⟩ st).memset
      = st.memset from rfl, hfind] at h
  dsimp only at h
  rw [if_neg hout] at h
  obtain ⟨rfl, rfl⟩ := Prod.mk.inj (Option.some_inj.mp h)
  exact ⟨rfl, rfl, rfl⟩

/-- Witness for C3 at the concrete out-of-range store fault `evFault2` on `st0`. -/
theorem claim3_witness :
    c3Out.2 = UserTaskControlFlow.Break ∧ c3Out.1.cx = evFault2.trapCx
    ∧ c3Out.1.memset = st0.memset :=
  claim3_fault_stop_frame evFault2 st0 c3Out.1 c3Out.2 0x1234 (by decide) (by decide)
    (by decide) (by decide)

/-- Claim C9 (amended): every Syscall Step accumulates into user time the
post-trap timer reading minus the constant start marker `ustart = 0`;
system time is accumulated again (end-of-step reading minus `sstart = 0`)
only on return paths yielding Continue — the paths yielding Stop return
before the second accumulation, leaving system time unchanged. -/
theorem claim9_time_accounting (ev : TrapEvent) (st st' : TaskState)
    (f : UserTaskControlFlow)
    (h : handle_syscall ev st = some (st', f)) :
    st'.utime = st.utime + (ev.tAfterUser - ustart)
    ∧ (f = UserTaskControlFlow.Continue → st'.stime = st.stime + (ev.tAtEnd - sstart))
    ∧ (f = UserTaskControlFlow.Break → st'.stime = st.stime) := by
  obtain ⟨uw, tcx, tr, res, se, t1, t2⟩ := ev
  cases tr <;> simp only [handle_syscall] at h
  case Breakpoint =>
    obtain ⟨rfl, rfl⟩ := Prod.mk.inj (Option.some_inj.mp h)
    exact ⟨rfl, fun _ => rfl, fun hcon => by simp at hcon⟩
  case UserEnvCall =>
    split at h <;> obtain ⟨rfl, rfl⟩ := Prod.mk.inj (Option.some_inj.mp h)
    · exact ⟨rfl, fun hcon => by simp at hcon, fun _ => rfl⟩
    · exact ⟨rfl, fun _ => rfl, fun hcon => by simp at hcon⟩
  case Time =>
    obtain ⟨rfl, rfl⟩ := Prod.mk.inj (Option.some_inj.mp h)
    exact ⟨rfl, fun _ => rfl, fun hcon => by simp at hcon⟩
  case Unknown => exact absurd h (by simp)
  case StorePageFault addr =>
    split at h
    · obtain ⟨rfl, rfl⟩ := Prod.mk.inj (Option.some_inj.mp h)
      exact ⟨rfl, fun _ => rfl, fun hcon => by simp at hcon⟩
    · split at h <;> obtain ⟨rfl, rfl⟩ := Prod.mk.inj (Option.some_inj.mp h)
      · exact ⟨rfl, fun _ => rfl, fun hcon => by simp at hcon⟩
      · exact ⟨rfl, fun hcon => by simp at hcon, fun _ => rfl⟩

/-- Witness for the amended C9 at the concrete sentinel syscall `evBrk` on `st0`. -/
theorem claim9_witness :
    c9Out.1.utime = st0.utime + (evBrk.tAfterUser - ustart)
    ∧ (c9Out.2 = UserTaskControlFlow.Continue →
        c9Out.1.stime = st0.stime + (evBrk.tAtEnd - sstart))
    ∧ (c9Out.2 = UserTaskControlFlow.Break → c9Out.1.stime = st0.stime) :=
  claim9_time_accounting evBrk st0 c9Out.1 c9Out.2 (by decide)

/-- Counterexample for C9 as stated: the sentinel syscall `evBrk` on `st0`
is a return path that yields Stop, the end-of-step reading delta is 7, yet
the task's system time is left unchanged — so not every return path
accumulates system time again before the verdict is returned. -/
theorem claim9_counterexample :
    handle_syscall evBrk st0 = some (c9Out.1, UserTaskControlFlow.Break)
    ∧ c9Out.1.stime = st0.stime
    ∧ evBrk.tAtEnd - sstart = 7 := by decide

/-- Claim C4: for every signal delivery through the trampoline with a
non-zero handler, every state observed at the handler-execution loop's
boundaries carries the handler's configured mask as the active signal mask,
and after the delivery returns the active mask equals the pre-delivery mask
exactly — restored on both loop exits (task exit status observed, or a
Stop verdict), regardless of how many Syscall Step iterations occurred. -/
theorem claim4_mask_safety (evs : List TrapEvent) (signal : Nat) (st st' : TaskState)
    (hh : (sigactionOf st signal).handler ≠ 0)
    (h : handle_signal evs signal st = some st') :
    ((signalLoopStates evs (signalEntryState signal st)).all
        fun m => m.sigmask == (sigactionOf st signal).mask) = true
    ∧ st'.sigmask = st.sigmask := by
  refine ⟨signalLoopStates_mask rfl, ?_⟩
  unfold handle_signal at h
  rw [if_neg hh] at h
  obtain ⟨stL, hL, rfl⟩ := Option.map_eq_some'.mp h
  rfl

/-- Witness for C4 at a delivery of signal 3 on `st0` whose handler loop
exits because the dispatcher set an exit status. -/
theorem claim4_witness :
    ((signalLoopStates [evExit] (signalEntryState 3 st0)).all
        fun m => m.sigmask == (sigactionOf st0 3).mask) = true
    ∧ c4Out.sigmask = st0.sigmask :=
  claim4_mask_safety [evExit] 3 st0 c4Out (by decide) (by decide)

/-- Claim C5: for every signal delivery through the trampoline that returns
normally (no exit status set), every hardware-context field except the
program counter equals its pre-delivery value, and the program counter
equals the value read back from the SignalUserContext record on the user
stack. -/
theorem claim5_context_restore (evs : List TrapEvent) (signal : Nat) (st st' : TaskState)
    (hh : (sigactionOf st signal).handler ≠ 0)
    (h : handle_signal evs signal st = some st')
    (hnorm : st'.exitCode = none) :
    st'.cx.sp = st.cx.sp ∧ st'.cx.ra = st.cx.ra ∧ st'.cx.sstatus = st.cx.sstatus
    ∧ st'.cx.arg0 = st.cx.arg0 ∧ st'.cx.arg1 = st.cx.arg1 ∧ st'.cx.arg2 = st.cx.arg2
    ∧ st'.cx.ret = st.cx.ret ∧ st'.cx.acked = st.cx.acked
    ∧ st'.cx.sepc = (memRead st'.mem (sigStackAddr st.cx.sp)).pc := by
  unfold handle_signal at h
  rw [if_neg hh] at h
  obtain ⟨stL, hL, rfl⟩ := Option.map_eq_some'.mp h
  exact ⟨rfl, rfl, rfl, rfl, rfl, rfl, rfl, rfl, rfl⟩

/-- Witness for C5 at a delivery of signal 3 on `st0` whose handler loop
ends with a Stop verdict and no exit status. -/
theorem claim5_witness :
    c5Out.cx.sp = st0.cx.sp ∧ c5Out.cx.ra = st0.cx.ra ∧ c5Out.cx.sstatus = st0.cx.sstatus
    ∧ c5Out.cx.arg0 = st0.cx.arg0 ∧ c5Out.cx.arg1 = st0.cx.arg1
    ∧ c5Out.cx.arg2 = st0.cx.arg2
    ∧ c5Out.cx.ret = st0.cx.ret ∧ c5Out.cx.acked = st0.cx.acked
    ∧ c5Out.cx.sepc = (memRead c5Out.mem (sigStackAddr st0.cx.sp)).pc :=
  claim5_context_restore [evBrk] 3 st0 c5Out (by decide) (by decide) (by decide)

/-- Claim C6 (amended): for every signal delivery with a non-zero handler,
the SignalUserContext constructed on the user stack contains the task's
pre-signal program counter and the handler's configured mask
(`sigaction.mask`, the mask installed for the handler's duration) — not the
mask that was active before delivery. -/
theorem claim6_record (signal : Nat) (st : TaskState)
    (hh : (sigactionOf st signal).handler ≠ 0) :
    memRead (signalEntryState signal st).mem (sigStackAddr st.cx.sp)
      = ⟨st.cx.sepc, (sigactionOf st signal).mask⟩ := by
  simp [signalEntryState, memRead, memWrite]

/-- Witness for the amended C6 at signal 3 on `st0`. -/
theorem claim6_witness :
    memRead (signalEntryState 3 st0).mem (sigStackAddr st0.cx.sp)
      = ⟨st0.cx.sepc, (sigactionOf st0 3).mask⟩ :=
  claim6_record 3 st0 (by decide)

/-- Counterexample for C6 as stated: at signal 3 on `st0` the pre-delivery
mask is 1, yet the constructed record's `sig_mask` field holds 2 — the
handler's configured mask — so the record does not contain the mask that
was in effect before the handler's mask was installed. -/
theorem claim6_counterexample :
    (sigactionOf st0 3).handler ≠ 0
    ∧ st0.sigmask = 1
    ∧ (memRead (signalEntryState 3 st0).mem (sigStackAddr st0.cx.sp)).sig_mask = 2
    ∧ (memRead (signalEntryState 3 st0).mem (sigStackAddr st0.cx.sp)).sig_mask
        ≠ st0.sigmask := by
  decide

/-- Claim C7: the pending-signal drain of the Task Main Loop is exhaustive
and delivers each signal at most once — the delivered list equals the
pending set at loop entry, the pending set is empty when the drain hands
the state to the next Syscall Step, and no signal appears twice. -/
theorem claim7_drain_exhaustive (evss : List (List TrapEvent)) (st stF : TaskState)
    (delivered : List Nat)
    (hnd : st.pending.Nodup)
    (h : drainSignals evss st = some (stF, delivered)) :
    delivered = st.pending ∧ stF.pending = [] ∧ delivered.Nodup := by
  obtain ⟨h1, h2⟩ := drainSignals_spec st.pending evss st stF delivered rfl h
  exact ⟨h1, h2, by rw [h1]; exact hnd⟩

/-- Witness for C7 at `stP` with pending signals 2 (default-handled) and 3
(handler-delivered). -/
theorem claim7_witness :
    c7Out.2 = stP.pending ∧ c7Out.1.pending = [] ∧ c7Out.2.Nodup :=
  claim7_drain_exhaustive [[], [evBrk]] stP c7Out.1 c7Out.2 (by decide) (by decide)

/-- Claim C8: for every signal whose looked-up action has handler address
zero, `handle_signal` applies default semantics without entering the
trampoline — the cancellation signal invokes the exit-with-signal path with
that signal's numeric value (setting the exit status the main loop observes
at its next check), and every other signal produces no observable action. -/
theorem claim8_default_action (evs : List TrapEvent) (signal : Nat) (st : TaskState)
    (ha : (sigactionOf st signal).handler = 0) :
    (signal = sigcancelNum →
      handle_signal evs signal st = some (exit_with_signal signal st)
      ∧ (exit_with_signal signal st).exitSignal = some signal
      ∧ (exit_with_signal signal st).exitCode = some signal)
    ∧ (signal ≠ sigcancelNum → handle_signal evs signal st = some st) := by
  constructor
  · intro hs
    refine ⟨?_, rfl, rfl⟩
    unfold handle_signal
    rw [if_pos ha, if_pos hs]
  · intro hs
    unfold handle_signal
    rw [if_pos ha, if_neg hs]

/-- Witness for C8 at the cancellation signal on `st0` (whose table has the
zero handler there). -/
theorem claim8_witness :
    (33 = sigcancelNum →
      handle_signal [] 33 st0 = some (exit_with_signal 33 st0)
      ∧ (exit_with_signal 33 st0).exitSignal = some 33
      ∧ (exit_with_signal 33 st0).exitCode = some 33)
    ∧ (33 ≠ sigcancelNum → handle_signal [] 33 st0 = some st0) :=
  claim8_default_action [] 33 st0 (by decide)

/-- Claim C10: for every signal whose looked-up action has handler address
zero and which is not the cancellation signal, `handle_signal` returns the
task state completely unchanged — context, mask, pending set, user stack
memory and all. -/
theorem claim10_default_noop (evs : List TrapEvent) (signal : Nat) (st : TaskState)
    (ha : (sigactionOf st signal).handler = 0) (hnc : signal ≠ sigcancelNum) :
    handle_signal evs signal st = some st := by
  unfold handle_signal
  rw [if_pos ha, if_neg hnc]

/-- Witness for C10 at signal 2 on `st0`. -/
theorem claim10_witness : handle_signal [] 2 st0 = some st0 :=
  claim10_default_noop [] 2 st0 (by decide) (by decide)

end ByteOS
